import Mathlib

/-!
Verification of the test-path execution driver of mcp-pytest-tools.

The embedding translates the Python source shallowly into Lean:
- `src/mcp_pytest_tools/models.py` gives `TestSummary`, `TestExecutionRequest`
  (with its pydantic field constraints) and `TestExecutionResult`;
- `src/mcp_pytest_tools/tools/execution.py` gives `build_command`,
  `classify_exit_code` and `execute_test`;
- `src/mcp_pytest_tools/parsers/output.py` gives `parse_test_output`.

Machine reals (Python `float`) are modelled as rationals.  The process
environment that `subprocess.run`, `time.time()` and `datetime.now()` expose
to `execute_test` is passed explicitly: a `ProcOutcome` value (the child
either completes with an exit code and output text, or exceeds the timeout)
and four clock readings in program order.
-/

/-- Execution statuses admitted by the `TestExecutionResult.validate_status`
field validator in `models.py`. -/
inductive ExecStatus where
  | passed
  | failed
  | error
  | timeout
  | skipped
  deriving DecidableEq, Repr

/-- Embedding of the `TestExecutionResult` pydantic model in `models.py`.
Timestamps and the duration are rationals standing for Python floats. -/
structure TestExecutionResult where
  test_path : String
  status : ExecStatus
  exit_code : Int
  stdout : String
  stderr : String
  duration : ℚ
  started_at : ℚ
  completed_at : ℚ
  error_message : Option String
  deriving DecidableEq, Repr

/-- Behaviour of the child process spawned by `subprocess.run` in
`execute_test`: either it returns normally with an exit code and captured
text, or it exceeds the timeout and `subprocess.TimeoutExpired` is raised. -/
inductive ProcOutcome where
  | completed (returncode : Int) (stdout stderr : String)
  | timedOut
  deriving DecidableEq, Repr

/-- The four clock readings `execute_test` takes, in program order:
`started_at = datetime.now()`, `start_time = time.time()`, the
`time.time()` reading after the child returns, and the final
`datetime.now()`.  Real clocks are monotone, which is the hypothesis the
timing invariants need. -/
def ClockMonotone (r0 r1 r2 r3 : ℚ) : Prop :=
  r0 ≤ r1 ∧ r1 ≤ r2 ∧ r2 ≤ r3

/- String helpers mirroring the Python primitives used by the parser.
They are written by structural recursion on character lists so that they
evaluate inside the kernel on concrete inputs. -/

/-- Whether the character list `s` starts with the list `p` (Python
`str.startswith`, used to express substring search). -/
def leadsWith : List Char → List Char → Bool
  | _, [] => true
  | [], _ :: _ => false
  | c :: s, d :: p => c == d && leadsWith s p

/-- Whether `p` occurs as a contiguous sublist of `s` (Python `in` on
strings). -/
def hasSub : List Char → List Char → Bool
  | [], p => leadsWith [] p
  | c :: s, p => leadsWith (c :: s) p || hasSub s p

/-- Python `sub in s` on strings. -/
def pyContains (s sub : String) : Bool :=
  hasSub s.data sub.data

/-- Fuel-driven count of non-overlapping occurrences; the fuel is an upper
bound on the recursion depth so the definition is structural. -/
def occCountAux : Nat → List Char → List Char → Nat
  | 0, _, _ => 0
  | fuel + 1, s, p =>
    match s with
    | [] => 0
    | c :: s1 =>
      if leadsWith (c :: s1) p then
        1 + occCountAux fuel (List.drop (p.length - 1) s1) p
      else
        occCountAux fuel s1 p

/-- Python `s.count(sub)` for a non-empty `sub`: non-overlapping
occurrence count. -/
def pyCount (s sub : String) : Nat :=
  occCountAux (s.data.length + 1) s.data sub.data

/-- Value of a list of decimal digit characters. -/
def digitsToNat (l : List Char) : Nat :=
  l.foldl (fun n c => 10 * n + (c.toNat - 48)) 0

/-- Model of Python `int(s)` restricted to an optional sign followed by
decimal digits; other accepted Python spellings (whitespace, underscores)
do not occur in pytest summary lines. -/
def pyInt? (s : String) : Option Int :=
  let signed : Int × List Char :=
    match s.data with
    | '-' :: cs => (-1, cs)
    | '+' :: cs => (1, cs)
    | cs => (1, cs)
  if signed.2 ≠ [] ∧ signed.2.all Char.isDigit then
    some (signed.1 * (digitsToNat signed.2 : Int))
  else
    none

/-- Model of Python `float(s)` restricted to an optional sign, an integer
part and an optional fractional part, returned as a rational. -/
def pyFloat? (s : String) : Option ℚ :=
  let signed : ℚ × List Char :=
    match s.data with
    | '-' :: cs => (-1, cs)
    | '+' :: cs => (1, cs)
    | cs => (1, cs)
  match (String.mk signed.2).splitOn "." with
  | [ip] =>
    if ip.data ≠ [] ∧ ip.data.all Char.isDigit then
      some (signed.1 * (digitsToNat ip.data : ℚ))
    else
      none
  | [ip, fp] =>
    if (ip.data ≠ [] ∨ fp.data ≠ []) ∧ ip.data.all Char.isDigit ∧
        fp.data.all Char.isDigit then
      some (signed.1 *
        ((digitsToNat ip.data : ℚ) +
          (digitsToNat fp.data : ℚ) / ((10 : ℚ) ^ fp.data.length)))
    else
      none
  | _ => none

/-- Python `s.rstrip("s")`: remove every trailing `s` character. -/
def rstripS (s : String) : String :=
  String.mk ((s.data.reverse.dropWhile (· == 's')).reverse)

/-- Python `line.split()`: split on whitespace runs, dropping empty
pieces. -/
def pySplit (line : String) : List String :=
  (line.split Char.isWhitespace).filter (· ≠ "")

/-- Shape of the dictionary returned by
`PytestOutputParser.parse_test_output`. -/
structure ParsedOutput where
  passed : Int
  failed : Nat
  skipped : Nat
  errors : Nat
  duration : ℚ
  details : List String
  deriving DecidableEq, Repr

/-- Inner loop of the summary scan in `parse_test_output`: for each indexed
token, a token equal to `passed` at a positive index reads the previous
token as the pass count, and a token equal to `in` before the last index
reads the next token (with trailing `s` stripped) as the duration.  The
state is the current `(passed, duration)` pair. -/
def scanParts (parts : List String) (st : Int × ℚ) : Int × ℚ :=
  (List.range parts.length).foldl
    (fun acc i =>
      let part := parts.getD i ""
      let acc1 :=
        if part = "passed" ∧ 0 < i then
          match pyInt? (parts.getD (i - 1) "") with
          | some n => (n, acc.2)
          | none => acc
        else acc
      if part = "in" ∧ i < parts.length - 1 then
        match pyFloat? (rstripS (parts.getD (i + 1) "")) with
        | some q => (acc1.1, q)
        | none => acc1
      else acc1)
    st

/-- Outer loop of the summary scan in `parse_test_output`: when `passed`
occurs in stdout, every line containing both `passed` and ` in ` is
token-split and scanned, later lines overwriting earlier results. -/
def scanSummary (stdout : String) (init : Int × ℚ) : Int × ℚ :=
  if pyContains stdout "passed" then
    (stdout.splitOn "\n").foldl
      (fun acc line =>
        if pyContains line "passed" && pyContains line " in " then
          scanParts (pySplit line) acc
        else acc)
      init
  else init

/-- Embedding of `PytestOutputParser.parse_test_output` in
`parsers/output.py`.  The `skipped` count and the `details` list are
initialised and never updated, exactly as in the source.  The failure
count is `stdout.count("FAILED") or 1` under Python truthiness, guarded by
`"FAILED" in stdout or "failed" in stdout`; the error count is `1` exactly
when `"ERROR" in stdout or "error" in stderr`. -/
def parse_test_output (stdout stderr : String) : ParsedOutput :=
  let pd := scanSummary stdout (0, 0)
  { passed := pd.1
    failed :=
      if pyContains stdout "FAILED" || pyContains stdout "failed" then
        if pyCount stdout "FAILED" = 0 then 1 else pyCount stdout "FAILED"
      else 0
    skipped := 0
    errors :=
      if pyContains stdout "ERROR" || pyContains stderr "error" then 1 else 0
    duration := pd.2
    details := [] }

/-- Embedding of `TestExecutionTool._build_command` in
`tools/execution.py`: the fixed prefix, the verbosity flag, the target,
then the extra arguments; `None` and the empty list both leave the base
command unchanged (Python truthiness of the `if pytest_args` guard). -/
def build_command (test_path : String) (pytest_args : Option (List String)) :
    List String :=
  let cmd := ["python", "-m", "pytest", "-v", test_path]
  match pytest_args with
  | some args => if args.isEmpty then cmd else cmd ++ args
  | none => cmd

/-- Embedding of the exit-code switch at lines 99-110 of
`tools/execution.py`: the status together with the error message variable
as set by each branch. -/
def classify_exit_code (returncode : Int) : ExecStatus × Option String :=
  if returncode = 0 then (ExecStatus.passed, none)
  else if returncode = 1 then (ExecStatus.failed, none)
  else if returncode = 4 then
    (ExecStatus.error, some "No tests collected or test not found")
  else
    (ExecStatus.error, some ("Unexpected exit code: " ++ toString returncode))

/-- Embedding of `TestExecutionTool.execute_test` in `tools/execution.py`.
`outcome` is the behaviour of the spawned child and `r0 r1 r2 r3` are the
clock readings in program order (`datetime.now()`, `time.time()`, the
`time.time()` after the child returns, the final `datetime.now()`; on the
timeout path the `except` block reads `datetime.now()`, modelled by `r3`).
When output is not captured both streams are reported empty; the parsed
output is computed and discarded, as in the source; the result error
message is the classification message gated on the status being `error`. -/
def execute_test (test_path : String) (timeout : Int) (capture_output : Bool)
    (pytest_args : Option (List String)) (outcome : ProcOutcome)
    (r0 r1 r2 r3 : ℚ) : TestExecutionResult :=
  let started_at := r0
  let _cmd := build_command test_path pytest_args
  match outcome with
  | ProcOutcome.timedOut =>
    { test_path := test_path
      status := ExecStatus.timeout
      exit_code := -1
      stdout := ""
      stderr := ""
      duration := (timeout : ℚ)
      started_at := started_at
      completed_at := r3
      error_message :=
        some ("Test execution timed out after " ++ toString timeout ++
          " seconds") }
  | ProcOutcome.completed returncode out err =>
    let stdout := if capture_output then out else ""
    let stderr := if capture_output then err else ""
    let duration := r2 - r1
    let completed_at := r3
    let sc := classify_exit_code returncode
    let _parsed := parse_test_output stdout stderr
    { test_path := test_path
      status := sc.1
      exit_code := returncode
      stdout := stdout
      stderr := stderr
      duration := duration
      started_at := started_at
      completed_at := completed_at
      error_message :=
        if sc.1 = ExecStatus.error then sc.2 else none }

/-- Embedding of the `TestSummary` pydantic model in `models.py`. -/
structure TestSummary where
  total_tests : Int
  passed : Int
  failed : Int
  skipped : Int
  errors : Int
  duration : ℚ
  deriving DecidableEq, Repr

/-- Embedding of the `TestSummary.success_rate` property in `models.py`:
zero when there are no tests, otherwise the passed fraction as a
percentage. -/
def TestSummary.success_rate (s : TestSummary) : ℚ :=
  if s.total_tests = 0 then 0
  else ((s.passed : ℚ) / (s.total_tests : ℚ)) * 100

/-- Embedding of the `TestExecutionRequest` pydantic model in
`models.py`. -/
structure TestExecutionRequest where
  test_path : String
  timeout : Int
  capture_output : Bool
  pytest_args : List String
  deriving DecidableEq, Repr

/-- Pydantic validation of `TestExecutionRequest`: `test_path` carries
`min_length=1` and `timeout` carries `ge=1, le=3600`; a violated
constraint raises a validation error and no request value is produced. -/
def mkTestExecutionRequest (test_path : String) (timeout : Int)
    (capture_output : Bool) (pytest_args : List String) :
    Except String TestExecutionRequest :=
  if test_path.length < 1 then
    Except.error "test_path: string should have at least 1 character"
  else if timeout < 1 then
    Except.error "timeout: input should be greater than or equal to 1"
  else if 3600 < timeout then
    Except.error "timeout: input should be less than or equal to 3600"
  else
    Except.ok
      { test_path := test_path
        timeout := timeout
        capture_output := capture_output
        pytest_args := pytest_args }

/-- Modelled from the spec: the server-side driver that validates an
incoming execution request before invoking the execution tool is not
present under `src/` (the tool registry in `server.py` wires no `run_test`
handler); per the spec, an invalid request is rejected before process
spawn with a validation failure and no process is started.  The second
component counts the child processes spawned: `execute_test` always
spawns exactly one. -/
def runRequest (test_path : String) (timeout : Int) (capture_output : Bool)
    (pytest_args : List String) (outcome : ProcOutcome) (r0 r1 r2 r3 : ℚ) :
    Except String TestExecutionResult × Nat :=
  match mkTestExecutionRequest test_path timeout capture_output pytest_args with
  | Except.error e => (Except.error e, 0)
  | Except.ok req =>
    (Except.ok
      (execute_test req.test_path req.timeout req.capture_output
        (some req.pytest_args) outcome r0 r1 r2 r3), 1)

/- Helper equations exposing the result record on each path of
`execute_test`; both hold by unfolding the definition. -/

/-- Result record on the timeout path of `execute_test`. -/
theorem execute_test_timedOut_eq (p : String) (t : Int) (c : Bool)
    (a : Option (List String)) (r0 r1 r2 r3 : ℚ) :
    execute_test p t c a ProcOutcome.timedOut r0 r1 r2 r3 =
      { test_path := p
        status := ExecStatus.timeout
        exit_code := -1
        stdout := ""
        stderr := ""
        duration := (t : ℚ)
        started_at := r0
        completed_at := r3
        error_message :=
          some ("Test execution timed out after " ++ toString t ++
            " seconds") } := rfl

/-- Result record on the normal-completion path of `execute_test`. -/
theorem execute_test_completed_eq (p : String) (t : Int) (c : Bool)
    (a : Option (List String)) (code : Int) (out err : String)
    (r0 r1 r2 r3 : ℚ) :
    execute_test p t c a (ProcOutcome.completed code out err) r0 r1 r2 r3 =
      { test_path := p
        status := (classify_exit_code code).1
        exit_code := code
        stdout := if c then out else ""
        stderr := if c then err else ""
        duration := r2 - r1
        started_at := r0
        completed_at := r3
        error_message :=
          if (classify_exit_code code).1 = ExecStatus.error then
            (classify_exit_code code).2
          else none } := rfl

/-- Failure-count field of the parsed output, by unfolding. -/
theorem parse_test_output_failed_eq (stdout stderr : String) :
    (parse_test_output stdout stderr).failed =
      (if pyContains stdout "FAILED" || pyContains stdout "failed" then
        if pyCount stdout "FAILED" = 0 then 1 else pyCount stdout "FAILED"
      else 0) := rfl

/-- Error-count field of the parsed output, by unfolding. -/
theorem parse_test_output_errors_eq (stdout stderr : String) :
    (parse_test_output stdout stderr).errors =
      (if pyContains stdout "ERROR" || pyContains stderr "error" then 1
       else 0) := rfl

/-- C1: on normal completion the result status and error message are the
pure image of the exit code: 0 gives passed, 1 gives failed, 4 gives error
with the no-tests message, and any other code gives error with the
unexpected-exit-code message. -/
theorem exit_code_status_mapping (p : String) (t : Int) (c : Bool)
    (a : Option (List String)) (code : Int) (out err : String)
    (r0 r1 r2 r3 : ℚ) :
    (code = 0 →
      (execute_test p t c a (ProcOutcome.completed code out err)
          r0 r1 r2 r3).status = ExecStatus.passed ∧
      (execute_test p t c a (ProcOutcome.completed code out err)
          r0 r1 r2 r3).error_message = none) ∧
    (code = 1 →
      (execute_test p t c a (ProcOutcome.completed code out err)
          r0 r1 r2 r3).status = ExecStatus.failed ∧
      (execute_test p t c a (ProcOutcome.completed code out err)
          r0 r1 r2 r3).error_message = none) ∧
    (code = 4 →
      (execute_test p t c a (ProcOutcome.completed code out err)
          r0 r1 r2 r3).status = ExecStatus.error ∧
      (execute_test p t c a (ProcOutcome.completed code out err)
          r0 r1 r2 r3).error_message =
        some "No tests collected or test not found") ∧
    (code ≠ 0 → code ≠ 1 → code ≠ 4 →
      (execute_test p t c a (ProcOutcome.completed code out err)
          r0 r1 r2 r3).status = ExecStatus.error ∧
      (execute_test p t c a (ProcOutcome.completed code out err)
          r0 r1 r2 r3).error_message =
        some ("Unexpected exit code: " ++ toString code)) := by
  refine ⟨?_, ?_, ?_, ?_⟩
  · rintro rfl; exact ⟨rfl, rfl⟩
  · rintro rfl; exact ⟨rfl, rfl⟩
  · rintro rfl; exact ⟨rfl, rfl⟩
  · intro h0 h1 h4
    have hc : classify_exit_code code =
        (ExecStatus.error, some ("Unexpected exit code: " ++ toString code)) := by
      simp only [classify_exit_code, if_neg h0, if_neg h1, if_neg h4]
    rw [execute_test_completed_eq]
    simp [hc]

/-- Witness for C1 at the concrete exit code 4. -/
theorem exit_code_status_mapping_witness :
    (execute_test "tests/t.py" 30 true none (ProcOutcome.completed 4 "" "")
        0 0 0 0).status = ExecStatus.error ∧
    (execute_test "tests/t.py" 30 true none (ProcOutcome.completed 4 "" "")
        0 0 0 0).error_message =
      some "No tests collected or test not found" :=
  (exit_code_status_mapping "tests/t.py" 30 true none 4 "" "" 0 0 0 0).2.2.1
    rfl

/-- C2: when the child exceeds the timeout, `execute_test` returns a result
with status timeout, exit code -1, duration equal to the configured
timeout, empty stdout and stderr, and an error message naming the timeout
value. -/
theorem timeout_result_shape (p : String) (t : Int) (c : Bool)
    (a : Option (List String)) (r0 r1 r2 r3 : ℚ) :
    (execute_test p t c a ProcOutcome.timedOut r0 r1 r2 r3).status =
      ExecStatus.timeout ∧
    (execute_test p t c a ProcOutcome.timedOut r0 r1 r2 r3).exit_code = -1 ∧
    (execute_test p t c a ProcOutcome.timedOut r0 r1 r2 r3).duration =
      (t : ℚ) ∧
    (execute_test p t c a ProcOutcome.timedOut r0 r1 r2 r3).stdout = "" ∧
    (execute_test p t c a ProcOutcome.timedOut r0 r1 r2 r3).stderr = "" ∧
    ∃ pre post,
      (execute_test p t c a ProcOutcome.timedOut r0 r1 r2 r3).error_message =
        some (pre ++ toString t ++ post) :=
  ⟨rfl, rfl, rfl, rfl, rfl,
    ⟨"Test execution timed out after ", " seconds", rfl⟩⟩

/-- C3: in every result produced by `execute_test`, the error message is
present exactly when the status is error or timeout; for passed and failed
the message is absent even when captured stderr is non-empty. -/
theorem error_message_iff_error_or_timeout (p : String) (t : Int) (c : Bool)
    (a : Option (List String)) (outcome : ProcOutcome) (r0 r1 r2 r3 : ℚ) :
    (execute_test p t c a outcome r0 r1 r2 r3).error_message ≠ none ↔
      ((execute_test p t c a outcome r0 r1 r2 r3).status = ExecStatus.error ∨
        (execute_test p t c a outcome r0 r1 r2 r3).status =
          ExecStatus.timeout) := by
  cases outcome with
  | timedOut =>
    rw [execute_test_timedOut_eq]
    simp
  | completed code out err =>
    rw [execute_test_completed_eq]
    simp only
    unfold classify_exit_code
    split_ifs <;> simp_all

/-- C4: an empty target fails request validation and is rejected before any
child process is spawned: the driver reports the validation error and the
spawn count is zero. -/
theorem empty_target_rejected_before_spawn (t : Int) (c : Bool)
    (args : List String) (outcome : ProcOutcome) (r0 r1 r2 r3 : ℚ) :
    (runRequest "" t c args outcome r0 r1 r2 r3).2 = 0 ∧
    (runRequest "" t c args outcome r0 r1 r2 r3).1 =
      Except.error "test_path: string should have at least 1 character" :=
  ⟨rfl, rfl⟩

/-- C5: with output capture disabled, the result reports empty stdout and
stderr whatever the child actually wrote, on both paths. -/
theorem no_capture_empty_streams (p : String) (t : Int)
    (a : Option (List String)) (outcome : ProcOutcome) (r0 r1 r2 r3 : ℚ) :
    (execute_test p t false a outcome r0 r1 r2 r3).stdout = "" ∧
    (execute_test p t false a outcome r0 r1 r2 r3).stderr = "" := by
  cases outcome <;> exact ⟨rfl, rfl⟩

/-- C6: the command builder is pure and produces the fixed prefix, the
verbosity flag, the target, then the extra arguments in order; at the
concrete target and arguments of the claim the vector ends in the target
followed by the two arguments. -/
theorem build_command_vector (t : String) (xs : List String) :
    build_command t (some xs) = ["python", "-m", "pytest", "-v", t] ++ xs ∧
    List.IsSuffix ["a/b.py::t", "-x", "--tb=short"]
      (build_command "a/b.py::t" (some ["-x", "--tb=short"])) := by
  constructor
  · cases xs with
    | nil => simp [build_command]
    | cons y ys => rfl
  · exact ⟨["python", "-m", "pytest", "-v"], rfl⟩

/-- C7: two normal completions with the same exit code yield the same
status and the same error message, whatever the captured stdout and stderr
texts are on either run and whatever the other inputs are. -/
theorem status_independent_of_output (p1 p2 : String) (t1 t2 : Int)
    (c1 c2 : Bool) (a1 a2 : Option (List String)) (code : Int)
    (o1 e1 o2 e2 : String) (q0 q1 q2 q3 s0 s1 s2 s3 : ℚ) :
    (execute_test p1 t1 c1 a1 (ProcOutcome.completed code o1 e1)
        q0 q1 q2 q3).status =
      (execute_test p2 t2 c2 a2 (ProcOutcome.completed code o2 e2)
        s0 s1 s2 s3).status ∧
    (execute_test p1 t1 c1 a1 (ProcOutcome.completed code o1 e1)
        q0 q1 q2 q3).error_message =
      (execute_test p2 t2 c2 a2 (ProcOutcome.completed code o2 e2)
        s0 s1 s2 s3).error_message :=
  ⟨rfl, rfl⟩

/-- C8: for a valid request (timeout at least 1, as pydantic enforces) and
monotone clock readings, every result has non-negative duration and a
completion timestamp no earlier than the start timestamp, on both paths. -/
theorem duration_nonneg_timestamps_ordered (p : String) (t : Int) (c : Bool)
    (a : Option (List String)) (outcome : ProcOutcome) (r0 r1 r2 r3 : ℚ)
    (hmono : ClockMonotone r0 r1 r2 r3) (ht : 1 ≤ t) :
    0 ≤ (execute_test p t c a outcome r0 r1 r2 r3).duration ∧
    (execute_test p t c a outcome r0 r1 r2 r3).started_at ≤
      (execute_test p t c a outcome r0 r1 r2 r3).completed_at := by
  obtain ⟨h01, h12, h23⟩ := hmono
  cases outcome with
  | timedOut =>
    rw [execute_test_timedOut_eq]
    refine ⟨?_, by linarith⟩
    have : (0 : ℚ) ≤ (t : ℚ) := by exact_mod_cast le_trans zero_le_one ht
    simpa using this
  | completed code out err =>
    rw [execute_test_completed_eq]
    constructor
    · simpa using sub_nonneg.mpr h12
    · have h03 : r0 ≤ r3 := le_trans h01 (le_trans h12 h23)
      simpa using h03

/-- Witness for C8 on the timeout path with the all-zero monotone clock. -/
theorem duration_nonneg_timestamps_ordered_witness :
    0 ≤ (execute_test "tests/t.py" 30 true none ProcOutcome.timedOut
        0 0 0 0).duration ∧
    (execute_test "tests/t.py" 30 true none ProcOutcome.timedOut
        0 0 0 0).started_at ≤
      (execute_test "tests/t.py" 30 true none ProcOutcome.timedOut
        0 0 0 0).completed_at :=
  duration_nonneg_timestamps_ordered "tests/t.py" 30 true none
    ProcOutcome.timedOut 0 0 0 0
    ⟨le_refl 0, le_refl 0, le_refl 0⟩ (by norm_num)

/-- C9 counterexample: the stdout text `x failed` makes the reported
failure count nonzero although the token `FAILED` does not occur in it, so
failure detection is not the claimed substring search for `FAILED`
alone. -/
theorem scan_failed_case_counterexample :
    (parse_test_output "x failed" "").failed ≠ 0 ∧
    pyContains "x failed" "FAILED" = false := by
  exact ⟨by decide, by decide⟩

/-- C9 amended: the reported failure count is nonzero exactly when
`FAILED` or the lowercase `failed` occurs in stdout, and the reported
error count is nonzero exactly when `ERROR` occurs in stdout or the
lowercase `error` occurs in stderr. -/
theorem scan_presence_amended (stdout stderr : String) :
    ((parse_test_output stdout stderr).failed ≠ 0 ↔
      (pyContains stdout "FAILED" = true ∨
        pyContains stdout "failed" = true)) ∧
    ((parse_test_output stdout stderr).errors ≠ 0 ↔
      (pyContains stdout "ERROR" = true ∨
        pyContains stderr "error" = true)) := by
  constructor
  · rw [parse_test_output_failed_eq]
    by_cases h : (pyContains stdout "FAILED" || pyContains stdout "failed")
      = true
    · rw [if_pos h]
      rw [Bool.or_eq_true] at h
      constructor
      · intro _; exact h
      · intro _
        split_ifs with hc
        · exact one_ne_zero
        · exact hc
    · rw [if_neg h]
      rw [Bool.or_eq_true] at h
      exact ⟨fun h0 => absurd rfl h0, fun hab => absurd hab h⟩
  · rw [parse_test_output_errors_eq]
    by_cases h : (pyContains stdout "ERROR" || pyContains stderr "error")
      = true
    · rw [if_pos h]
      rw [Bool.or_eq_true] at h
      exact ⟨fun _ => h, fun _ => one_ne_zero⟩
    · rw [if_neg h]
      rw [Bool.or_eq_true] at h
      exact ⟨fun h0 => absurd rfl h0, fun hab => absurd hab h⟩

/-- C10: `success_rate` is total: with zero total tests it returns zero
without evaluating the division, and otherwise it is the passed fraction
times one hundred. -/
theorem success_rate_total (s : TestSummary) :
    (s.total_tests = 0 → s.success_rate = 0) ∧
    (s.total_tests ≠ 0 →
      s.success_rate = (s.passed : ℚ) / (s.total_tests : ℚ) * 100) := by
  constructor <;> intro h <;> simp [TestSummary.success_rate, h]

/-- Witness for C10 at a summary with zero total tests. -/
theorem success_rate_total_witness :
    TestSummary.success_rate
      { total_tests := 0
        passed := 5
        failed := 0
        skipped := 0
        errors := 0
        duration := 0 } = 0 :=
  (success_rate_total
    { total_tests := 0
      passed := 5
      failed := 0
      skipped := 0
      errors := 0
      duration := 0 }).1 rfl
